import Mathlib

/-!
Shallow embedding of the MeshCoP Joiner role (`src/src/core/meshcop/joiner.cpp`
of the repository). Pure helper classes that the Joiner uses but whose code
is not part of the repository snapshot (`Crc16`, `SteeringDataTlv` bit
access, TLV fetch/validation, the DTLS client and IPv6 filter state) are
modelled from the specification's description of their interfaces; every
control-flow decision of the Joiner itself is translated directly from
`joiner.cpp`.
-/

set_option maxRecDepth 16384

namespace MeshCoP

/-- Error codes of the embedded code (`ThreadError` in the source); only the
values `joiner.cpp` mentions are carried. -/
inductive ThreadError
  | kNone
  | kDrop
  | kParse
  | kNoBufs
  | kInvalidArgs
  | kBusy
  deriving DecidableEq, Repr

/-- CoAP message types (`kCoapTypeConfirmable`, … in the source). -/
inductive CoapType
  | confirmable
  | nonConfirmable
  | acknowledgment
  | reset
  deriving DecidableEq, Repr

/-- CoAP message codes; `post` is `kCoapRequestPost` and `changed` is
`kCoapResponseChanged` in the source. -/
inductive CoapCode
  | post
  | get
  | changed
  | other
  deriving DecidableEq, Repr

/-- CoAP header as far as the Joiner inspects it: `GetType()` and
`GetCode()`. -/
structure CoapHeader where
  type : CoapType
  code : CoapCode
  deriving DecidableEq, Repr

/-- Modelled from the spec: `Crc16::Update` is not under `src/`; the spec
describes the steering filter as two checksums over the identity bytes
"using two different polynomial parameterizations". This is the standard
MSB-first 16-bit CRC update step, parameterized by the polynomial. -/
def crc16Update (poly crc b : Nat) : Nat :=
  (List.range 8).foldl
    (fun c _ => if 0x8000 ≤ c then ((c * 2) % 0x10000) ^^^ poly else (c * 2) % 0x10000)
    ((crc ^^^ (b * 0x100)) % 0x10000)

/-- Modelled from the spec: checksum of a byte sequence, CRC register
starting at 0, one `crc16Update` per byte (the source feeds the 8 identity
bytes one at a time). -/
def crc16 (poly : Nat) (bytes : List Nat) : Nat :=
  bytes.foldl (crc16Update poly) 0

/-- CRC16-CCITT polynomial (`Crc16::kCcitt`). -/
def kCcitt : Nat := 0x1021

/-- CRC16-ANSI polynomial (`Crc16::kAnsi`). -/
def kAnsi : Nat := 0x8005

/-- Modelled from the spec: the steering bitmap is an "ordered bit sequence"
with a "length in bits"; `GetNumBits` of `SteeringDataTlv` is its bit
length. The bitmap is embedded as that ordered bit sequence. -/
def getNumBits (bits : List Bool) : Nat := bits.length

/-- Modelled from the spec: `GetBit` of `SteeringDataTlv` tests one position
of the ordered bit sequence. -/
def getBit (bits : List Bool) (i : Nat) : Bool := bits.getD i false

/-- One discovery observation (`otActiveScanResult` as far as the Joiner
reads it: extended address, PAN id, channel, Joiner UDP port, steering
data). -/
structure ScanResult where
  extAddress : List Nat
  panId : Nat
  channel : Nat
  joinerUdpPort : Nat
  steeringData : List Bool
  deriving DecidableEq, Repr

/-- Candidate-router fields of the `Joiner` object
(`mJoinerRouterChannel`, `mJoinerRouterPanId`, `mJoinerUdpPort`,
`mJoinerRouter`). -/
structure JoinerState where
  joinerRouterChannel : Nat
  joinerRouterPanId : Nat
  joinerUdpPort : Nat
  joinerRouter : List Nat
  deriving DecidableEq, Repr

/-- Broadcast PAN id sentinel (`Mac::kPanIdBroadcast`). -/
def kPanIdBroadcast : Nat := 0xffff

/-- Steering-data test of `HandleDiscoverResult`: both CRC-derived bit
positions, each taken modulo the bitmap's bit count, must be set
(`steeringData.GetBit(ccitt.Get() % steeringData.GetNumBits()) &&
steeringData.GetBit(ansi.Get() % steeringData.GetNumBits())`). -/
def steeringMatches (hashMac : List Nat) (bits : List Bool) : Bool :=
  getBit bits (crc16 kCcitt hashMac % getNumBits bits) &&
  getBit bits (crc16 kAnsi hashMac % getNumBits bits)

/-- Divisors of the modulo operations that the steering test of
`HandleDiscoverResult` evaluates, in evaluation order: the first modulo is
evaluated unconditionally, the second only when the first bit test passes
(C++ `&&` short-circuit). -/
def steeringMatchDivisors (hashMac : List Nat) (bits : List Bool) : List Nat :=
  if getBit bits (crc16 kCcitt hashMac % getNumBits bits) then
    [getNumBits bits, getNumBits bits]
  else
    [getNumBits bits]

/-- Candidate fields taken from a scan result, exactly the four assignments
of the match branch of `HandleDiscoverResult`. -/
def candidateOf (r : ScanResult) : JoinerState :=
  { joinerRouterChannel := r.channel
    joinerRouterPanId := r.panId
    joinerUdpPort := r.joinerUdpPort
    joinerRouter := r.extAddress }

/-- Non-terminal branch of `HandleDiscoverResult`: on a steering match the
four candidate fields are overwritten from this result, otherwise the state
is untouched. -/
def handleScanResult (hashMac : List Nat) (s : JoinerState) (r : ScanResult) : JoinerState :=
  if steeringMatches hashMac r.steeringData then candidateOf r else s

/-- Externally visible effects of the terminal (`aResult == NULL`) branch of
`HandleDiscoverResult`: radio PAN id / channel reprogramming
(`SetPanId` / `SetChannel`), the firewall exception (`AddUnsecurePort`), and
the secured-channel connect with its peer interface identifier and UDP
port. -/
structure TerminalEffects where
  macPanIdSet : Option Nat
  macChannelSet : Option Nat
  unsecurePortAdded : Bool
  connectPeerIid : Option (List Nat)
  connectPeerPort : Option Nat
  deriving DecidableEq, Repr

/-- Absence of terminal effects. -/
def noTerminalEffects : TerminalEffects :=
  { macPanIdSet := none
    macChannelSet := none
    unsecurePortAdded := false
    connectPeerIid := none
    connectPeerPort := none }

/-- Terminal branch of `HandleDiscoverResult`: only when
`mJoinerRouterPanId != Mac::kPanIdBroadcast` are the radio reprogrammed, the
unsecure port added and the secured-channel connect issued. -/
def handleTerminal (s : JoinerState) : TerminalEffects :=
  if s.joinerRouterPanId ≠ kPanIdBroadcast then
    { macPanIdSet := some s.joinerRouterPanId
      macChannelSet := some s.joinerRouterChannel
      unsecurePortAdded := true
      connectPeerIid := some s.joinerRouter
      connectPeerPort := some s.joinerUdpPort }
  else
    noTerminalEffects

/-- `Joiner::HandleDiscoverResult`: a non-null result runs the steering
filter and possibly records the candidate; the null (end-of-scan) result
triggers the terminal branch. -/
def handleDiscoverResult (hashMac : List Nat) (s : JoinerState) (r : Option ScanResult) :
    JoinerState × TerminalEffects :=
  match r with
  | some res => (handleScanResult hashMac s res, noTerminalEffects)
  | none => (s, handleTerminal s)

/-- Divisors of the modulo operations `HandleDiscoverResult` evaluates for
one discovery callback: the steering test runs for every non-null result,
with no guard on the bitmap length. -/
def handleDiscoverDivisors (hashMac : List Nat) (r : Option ScanResult) : List Nat :=
  match r with
  | some res => steeringMatchDivisors hashMac res.steeringData
  | none => []

/-- Folding a whole sequence of non-terminal discovery results through
`HandleDiscoverResult`. -/
def processScanResults (hashMac : List Nat) (s : JoinerState) (rs : List ScanResult) :
    JoinerState :=
  rs.foldl (handleScanResult hashMac) s

/-- The last steering-matching result of a sequence, written as the same
left fold that drives `processScanResults`. -/
def lastSteeringMatch (hashMac : List Nat) (rs : List ScanResult) : Option ScanResult :=
  rs.foldl (fun acc r => if steeringMatches hashMac r.steeringData then some r else acc) none

/-- Modelled from the spec: outcome of `Tlv::GetTlv` for one TLV type of an
inbound message (the TLV code is not under `src/`). A present TLV carries
its decoded value (abstracted to a number) and the outcome of its
type-specific `IsValid()` well-formedness predicate; an absent TLV makes
the fetch fail. -/
structure FetchedTlv where
  val : Nat
  isValid : Bool
  deriving DecidableEq, Repr

/-- Inbound entrust message as far as `HandleJoinerEntrust` reads it: one
slot per required TLV type (network master key, mesh-local prefix, extended
PAN id, network name, active timestamp). -/
structure EntrustMessage where
  masterKey : Option FetchedTlv
  meshLocalPfx : Option FetchedTlv
  extendedPanId : Option FetchedTlv
  networkName : Option FetchedTlv
  activeTimestamp : Option FetchedTlv
  deriving DecidableEq, Repr

/-- The source's per-TLV pattern: `SuccessOrExit(Tlv::GetTlv(...))` followed
by `VerifyOrExit(tlv.IsValid())`; `none` means one of the two checks failed
and the handler bails out. -/
def fetchValidTlv (t : Option FetchedTlv) : Option Nat :=
  match t with
  | some f => if f.isValid then some f.val else none
  | none => none

/-- One TLV slot failing the source's fetch-or-validate pattern: the TLV is
missing from the message, or present but invalid. -/
def tlvFails (t : Option FetchedTlv) : Prop :=
  t = none ∨ ∃ f, t = some f ∧ f.isValid = false

/-- Externally visible effects of `HandleJoinerEntrust`: the credential
setters invoked with their decoded values (`SetMasterKey`,
`SetMeshLocalPrefix`, `SetExtendedPanId`, `SetNetworkName`, plus a slot for
an active-timestamp application so its absence is observable), whether
`SendJoinerEntrustResponse` is invoked, and whether the identity-rotation
timer is started. -/
structure EntrustEffects where
  masterKeySet : Option Nat
  meshLocalPfxSet : Option Nat
  extendedPanIdSet : Option Nat
  networkNameSet : Option Nat
  activeTimestampSet : Option Nat
  responseSent : Bool
  timerStarted : Bool
  deriving DecidableEq, Repr

/-- Absence of entrust effects: nothing applied, no response, no timer. -/
def entrustNoEffects : EntrustEffects :=
  { masterKeySet := none
    meshLocalPfxSet := none
    extendedPanIdSet := none
    networkNameSet := none
    activeTimestampSet := none
    responseSent := false
    timerStarted := false }

/-- `Joiner::HandleJoinerEntrust`: drop anything that is not a confirmable
POST; then fetch-and-validate the five TLVs in source order, bailing out at
the first failure; only after all five pass are the four credential setters
invoked, the response sent and the timer started. The active timestamp is
validated but never applied to a subsystem — `joiner.cpp` lines 306-309
call only the four setters. -/
def handleJoinerEntrust (h : CoapHeader) (m : EntrustMessage) : EntrustEffects :=
  if h.type = CoapType.confirmable ∧ h.code = CoapCode.post then
    match fetchValidTlv m.masterKey with
    | none => entrustNoEffects
    | some masterKeyVal =>
      match fetchValidTlv m.meshLocalPfx with
      | none => entrustNoEffects
      | some meshLocalPfxVal =>
        match fetchValidTlv m.extendedPanId with
        | none => entrustNoEffects
        | some extendedPanIdVal =>
          match fetchValidTlv m.networkName with
          | none => entrustNoEffects
          | some networkNameVal =>
            match fetchValidTlv m.activeTimestamp with
            | none => entrustNoEffects
            | some _ =>
              { masterKeySet := some masterKeyVal
                meshLocalPfxSet := some meshLocalPfxVal
                extendedPanIdSet := some extendedPanIdVal
                networkNameSet := some networkNameVal
                activeTimestampSet := none
                responseSent := true
                timerStarted := true }
  else
    entrustNoEffects

/-- Modelled from the spec: observable state of the secured channel and the
firewall exception the Joiner owns — whether the DTLS client is connected
and whether its port is currently listed as an unsecure-port exception. -/
structure SecureChannelState where
  connected : Bool
  unsecurePortOpen : Bool
  deriving DecidableEq, Repr

/-- `Joiner::Close`: `mSecureCoapClient.Disconnect()` followed by
`RemoveUnsecurePort(mSecureCoapClient.GetPort())`, both unconditional.
Modelled from the spec: `Disconnect` and `RemoveUnsecurePort` themselves
are not under `src/`; per the spec's lifecycle interface they clear the
connection and the firewall exception. -/
def close (_ : SecureChannelState) : SecureChannelState :=
  { connected := false
    unsecurePortOpen := false }

/-- `Joiner::Stop`: calls `Close()` and returns `kThreadError_None`. -/
def stop (s : SecureChannelState) : SecureChannelState × ThreadError :=
  (close s, ThreadError.kNone)

/-- Inbound finalize response as `HandleJoinerFinalizeResponse` inspects it:
the transport result (`aResult`), the CoAP type and code of the response
header, and the State TLV fetch outcome. -/
structure FinalizeResponse where
  result : ThreadError
  type : CoapType
  code : CoapCode
  stateTlv : Option FetchedTlv
  deriving DecidableEq, Repr

/-- `Joiner::HandleJoinerFinalizeResponse`: the response is accepted (and
logged) only when the transport reported no error, the type is an
acknowledgment, the code is `changed`, and a valid State TLV is present;
every path, accepting or not, falls through to the `exit:` label which
calls `Close()`. Returns the channel state after the handler and whether
the response was accepted. -/
def handleJoinerFinalizeResponse (r : FinalizeResponse) (s : SecureChannelState) :
    SecureChannelState × Bool :=
  if r.result = ThreadError.kNone ∧ r.type = CoapType.acknowledgment ∧
      r.code = CoapCode.changed then
    match r.stateTlv with
    | some st => if st.isValid then (close s, true) else (close s, false)
    | none => (close s, false)
  else
    (close s, false)

/-- Modelled from the spec: device and secure-channel configuration that
`Joiner::Start` touches — the MAC extended address (`SetExtAddress`), the
link-local interface identifier it derives (`UpdateLinkLocalAddress`), the
DTLS pre-shared key and provisioning URL, plus the Joiner's own
`mJoinerRouterPanId` and whether the discovery request was issued. -/
structure StartState where
  macExtAddress : List Nat
  linkLocalIid : List Nat
  dtlsPsk : Option (List Nat)
  dtlsUrl : Option (List Nat)
  joinerRouterPanId : Nat
  discoverRequested : Bool
  deriving DecidableEq, Repr

/-- Modelled from the spec: maximum pre-shared key length the DTLS layer
accepts ("bytes + length ≤ an implementation-defined maximum"). -/
def kMaxPskLength : Nat := 32

/-- Modelled from the spec: maximum provisioning-URL length the DTLS layer
accepts. -/
def kMaxUrlLength : Nat := 64

/-- `Joiner::Start`: first overwrite the extended address with the
hash-MAC-derived address and refresh the link-local address; then
`SetPsk` (fails past the maximum length), then `SetProvisioningUrl` (fails
past the maximum length), then assign `mJoinerRouterPanId =
Mac::kPanIdBroadcast`, then request discovery (whose external success is
the parameter `discoverOk`); each `SuccessOrExit` returns the error with
the mutations made so far kept. -/
def start (hashMac pskd url : List Nat) (discoverOk : Bool) (s : StartState) :
    StartState × ThreadError :=
  let s1 := { s with macExtAddress := hashMac, linkLocalIid := hashMac }
  if kMaxPskLength < pskd.length then (s1, ThreadError.kInvalidArgs)
  else
    let s2 := { s1 with dtlsPsk := some pskd }
    if kMaxUrlLength < url.length then (s2, ThreadError.kInvalidArgs)
    else
      let s3 := { s2 with dtlsUrl := some url }
      let s4 := { s3 with joinerRouterPanId := kPanIdBroadcast }
      if discoverOk then ({ s4 with discoverRequested := true }, ThreadError.kNone)
      else (s4, ThreadError.kBusy)

/-- Interpreting an accumulated "last match" as the resulting candidate
state: no match leaves the prior state, a match yields that result's
candidate fields. -/
def applyMatch (s : JoinerState) : Option ScanResult → JoinerState
  | some r => candidateOf r
  | none => s

/-- Hardware identity used by the concrete examples (the spec's end-to-end
scenario identity `AA:BB:CC:DD:EE:FF:00:11`). -/
def exMac : List Nat := [0xaa, 0xbb, 0xcc, 0xdd, 0xee, 0xff, 0x00, 0x11]

/-- Bitmap of 8 bits in which both bits derived from `exMac` (CCITT index
`58950 % 8 = 6`, ANSI index `16428 % 8 = 4`) are set. -/
def bothBitsBitmap : List Bool :=
  [false, false, false, false, true, false, true, false]

/-- Bitmap of 8 bits in which only the CCITT-derived bit (index 6) is
set. -/
def oneBitBitmap : List Bool :=
  [false, false, false, false, false, false, true, false]

/-- Discovery result carrying an empty steering bitmap (steering-data TLV
of length 0). -/
def zeroSteeringResult : ScanResult :=
  { extAddress := [1, 2, 3, 4, 5, 6, 7, 8]
    panId := 0x1234
    channel := 15
    joinerUdpPort := 1000
    steeringData := [] }

/-- First steering-matching discovery result of the last-match-wins
example. -/
def exResult1 : ScanResult :=
  { extAddress := [1, 1, 1, 1, 1, 1, 1, 1]
    panId := 0x1111
    channel := 11
    joinerUdpPort := 1111
    steeringData := bothBitsBitmap }

/-- Second steering-matching discovery result of the last-match-wins
example. -/
def exResult2 : ScanResult :=
  { extAddress := [2, 2, 2, 2, 2, 2, 2, 2]
    panId := 0x1234
    channel := 15
    joinerUdpPort := 1000
    steeringData := bothBitsBitmap }

/-- Steering-matching discovery result whose PAN id is the broadcast
sentinel. -/
def broadcastPanResult : ScanResult :=
  { extAddress := [3, 3, 3, 3, 3, 3, 3, 3]
    panId := kPanIdBroadcast
    channel := 20
    joinerUdpPort := 2000
    steeringData := bothBitsBitmap }

/-- Joiner candidate fields as the constructor initializes them. -/
def initJoinerState : JoinerState :=
  { joinerRouterChannel := 0
    joinerRouterPanId := 0
    joinerUdpPort := 0
    joinerRouter := [] }

/-- Header of a well-formed entrust request: confirmable POST. -/
def okHeader : CoapHeader :=
  { type := CoapType.confirmable, code := CoapCode.post }

/-- Entrust message in which all five required TLVs are present and
valid. -/
def fullEntrustMessage : EntrustMessage :=
  { masterKey := some { val := 11, isValid := true }
    meshLocalPfx := some { val := 22, isValid := true }
    extendedPanId := some { val := 33, isValid := true }
    networkName := some { val := 44, isValid := true }
    activeTimestamp := some { val := 55, isValid := true }
  }

/-- Entrust message identical to `fullEntrustMessage` except that the
network master key TLV is missing. -/
def missingKeyMessage : EntrustMessage :=
  { fullEntrustMessage with masterKey := none }

/-- Device and configuration state before `Start`, with the constructor's
`mJoinerRouterPanId = 0`. -/
def initStartState : StartState :=
  { macExtAddress := []
    linkLocalIid := []
    dtlsPsk := none
    dtlsUrl := none
    joinerRouterPanId := 0
    discoverRequested := false }

/-- A TLV slot fails the fetch-or-validate pattern exactly when
`fetchValidTlv` yields nothing. -/
theorem tlvFails_iff (t : Option FetchedTlv) : tlvFails t ↔ fetchValidTlv t = none := by
  cases t with
  | none => simp [tlvFails, fetchValidTlv]
  | some f => cases hf : f.isValid <;> simp [tlvFails, fetchValidTlv, hf]

/-- Folding scan results over the candidate state computes the same thing
as tracking only the most recent steering match. -/
theorem processScanResults_applyMatch (hashMac : List Nat) (rs : List ScanResult) :
    ∀ (acc : Option ScanResult) (s : JoinerState),
      processScanResults hashMac (applyMatch s acc) rs =
        applyMatch s (rs.foldl
          (fun a r => if steeringMatches hashMac r.steeringData then some r else a) acc) := by
  induction rs with
  | nil => intro acc s; rfl
  | cons r rs ih =>
    intro acc s
    have hstep : processScanResults hashMac (applyMatch s acc) (r :: rs) =
        processScanResults hashMac (handleScanResult hashMac (applyMatch s acc) r) rs := rfl
    rw [hstep]
    cases hm : steeringMatches hashMac r.steeringData with
    | true =>
      have h1 : handleScanResult hashMac (applyMatch s acc) r = applyMatch s (some r) := by
        simp [handleScanResult, hm, applyMatch]
      rw [h1, ih (some r) s]
      simp [hm]
    | false =>
      have h1 : handleScanResult hashMac (applyMatch s acc) r = applyMatch s acc := by
        simp [handleScanResult, hm]
      rw [h1, ih acc s]
      simp [hm]

/-- Processing a scan sequence leaves exactly the candidate fields of the
last steering-matching result (or the starting state when none
matched). -/
theorem processScanResults_eq_lastMatch (hashMac : List Nat) (s : JoinerState)
    (rs : List ScanResult) :
    processScanResults hashMac s rs = applyMatch s (lastSteeringMatch hashMac rs) := by
  have h := processScanResults_applyMatch hashMac rs none s
  simpa [applyMatch, lastSteeringMatch] using h

/-- C1: the code evaluates the steering bit-index modulo for every non-null
discovery result with no guard on the bitmap length, so a result carrying
an empty steering bitmap makes `HandleDiscoverResult` evaluate
`ccitt.Get() % steeringData.GetNumBits()` with divisor 0 — the claimed
reject/short-circuit does not exist in the code. -/
theorem steeringZeroLengthModZero :
    handleDiscoverDivisors exMac (some zeroSteeringResult) = [0] ∧
    0 ∈ handleDiscoverDivisors exMac (some zeroSteeringResult) := by
  decide

/-- C2: whenever any one of the five required TLVs is missing or invalid,
`HandleJoinerEntrust` produces no effects at all — no credential setter is
invoked, no response is sent and no timer is started, regardless of which
TLV failed and of the request header. -/
theorem entrustAllOrNothing (h : CoapHeader) (m : EntrustMessage)
    (hfail : tlvFails m.masterKey ∨ tlvFails m.meshLocalPfx ∨ tlvFails m.extendedPanId ∨
      tlvFails m.networkName ∨ tlvFails m.activeTimestamp) :
    handleJoinerEntrust h m = entrustNoEffects := by
  simp only [tlvFails_iff] at hfail
  unfold handleJoinerEntrust
  split
  · cases h1 : fetchValidTlv m.masterKey <;>
      cases h2 : fetchValidTlv m.meshLocalPfx <;>
        cases h3 : fetchValidTlv m.extendedPanId <;>
          cases h4 : fetchValidTlv m.networkName <;>
            cases h5 : fetchValidTlv m.activeTimestamp <;>
              simp_all
  · rfl

/-- Witness for C2: a confirmable POST entrust request missing only the
network master key TLV produces no effects. -/
theorem entrustAllOrNothing_witness :
    handleJoinerEntrust okHeader missingKeyMessage = entrustNoEffects :=
  entrustAllOrNothing okHeader missingKeyMessage (Or.inl (Or.inl rfl))

/-- C7: an entrust request that is not a confirmable POST is dropped with
no response, no credential application and no timer. -/
theorem entrustDropsNonConfirmablePost (h : CoapHeader) (m : EntrustMessage)
    (hbad : h.type ≠ CoapType.confirmable ∨ h.code ≠ CoapCode.post) :
    handleJoinerEntrust h m = entrustNoEffects := by
  have hng : ¬(h.type = CoapType.confirmable ∧ h.code = CoapCode.post) := by tauto
  simp [handleJoinerEntrust, hng]

/-- Witness for C7: an acknowledgment-typed entrust request with all five
TLVs present and valid is still dropped. -/
theorem entrustDropsNonConfirmablePost_witness :
    handleJoinerEntrust { type := CoapType.acknowledgment, code := CoapCode.post }
      fullEntrustMessage = entrustNoEffects :=
  entrustDropsNonConfirmablePost _ _ (Or.inl (by decide))

/-- C3 counterexample: on a confirmable POST entrust request with all five
TLVs present and valid, `HandleJoinerEntrust` does not invoke five
credential subsystems — the active timestamp is validated but applied
nowhere, so the claim as stated fails at this concrete input. -/
theorem entrustFiveSubsystemsCounterexample :
    ¬((handleJoinerEntrust okHeader fullEntrustMessage).masterKeySet.isSome = true ∧
      (handleJoinerEntrust okHeader fullEntrustMessage).meshLocalPfxSet.isSome = true ∧
      (handleJoinerEntrust okHeader fullEntrustMessage).extendedPanIdSet.isSome = true ∧
      (handleJoinerEntrust okHeader fullEntrustMessage).networkNameSet.isSome = true ∧
      (handleJoinerEntrust okHeader fullEntrustMessage).activeTimestampSet.isSome = true) := by
  decide

/-- C3 amended: on a confirmable POST entrust request in which all five
TLVs are present and valid, `HandleJoinerEntrust` invokes the four
credential subsystems (master key, mesh-local prefix, extended PAN id,
network name) with the decoded values, sends one response and arms the
identity-rotation timer; the active timestamp is validated but not applied
to any subsystem. -/
theorem entrustAppliesFourOfFive (h : CoapHeader) (m : EntrustMessage)
    (mk ml ep nn ts : FetchedTlv)
    (hh : h.type = CoapType.confirmable) (hc : h.code = CoapCode.post)
    (h1 : m.masterKey = some mk) (v1 : mk.isValid = true)
    (h2 : m.meshLocalPfx = some ml) (v2 : ml.isValid = true)
    (h3 : m.extendedPanId = some ep) (v3 : ep.isValid = true)
    (h4 : m.networkName = some nn) (v4 : nn.isValid = true)
    (h5 : m.activeTimestamp = some ts) (v5 : ts.isValid = true) :
    handleJoinerEntrust h m =
      { masterKeySet := some mk.val
        meshLocalPfxSet := some ml.val
        extendedPanIdSet := some ep.val
        networkNameSet := some nn.val
        activeTimestampSet := none
        responseSent := true
        timerStarted := true } := by
  simp [handleJoinerEntrust, fetchValidTlv, hh, hc, h1, h2, h3, h4, h5, v1, v2, v3, v4, v5]

/-- Witness for C3's amended theorem at the concrete all-valid request. -/
theorem entrustAppliesFourOfFive_witness :
    handleJoinerEntrust okHeader fullEntrustMessage =
      { masterKeySet := some 11
        meshLocalPfxSet := some 22
        extendedPanIdSet := some 33
        networkNameSet := some 44
        activeTimestampSet := none
        responseSent := true
        timerStarted := true } :=
  entrustAppliesFourOfFive okHeader fullEntrustMessage
    { val := 11, isValid := true } { val := 22, isValid := true }
    { val := 33, isValid := true } { val := 44, isValid := true }
    { val := 55, isValid := true }
    rfl rfl rfl rfl rfl rfl rfl rfl rfl rfl rfl rfl

/-- C4: whatever the finalize-response outcome — transport success with an
accepted or rejected state, wrong type, wrong code, missing or invalid
State TLV, or a transport error — `HandleJoinerFinalizeResponse` leaves
the secured channel disconnected and the unsecure-port exception removed:
every path runs `Close()`. -/
theorem finalizeResponseAlwaysCloses (r : FinalizeResponse) (s : SecureChannelState) :
    (handleJoinerFinalizeResponse r s).1.connected = false ∧
    (handleJoinerFinalizeResponse r s).1.unsecurePortOpen = false ∧
    (handleJoinerFinalizeResponse r s).1 = close s := by
  have hcl : (handleJoinerFinalizeResponse r s).1 = close s := by
    unfold handleJoinerFinalizeResponse
    split
    · cases r.stateTlv with
      | none => rfl
      | some st => by_cases hv : st.isValid = true <;> simp [hv]
    · rfl
  exact ⟨by rw [hcl]; rfl, by rw [hcl]; rfl, hcl⟩

/-- C5: for an 8-byte identity and a non-empty bitmap, the steering test
passes exactly when both CRC-derived bits (CCITT index and ANSI index,
each modulo the bit count) are set; in particular when the two indexed
bits differ — only one of them set — the match fails. -/
theorem steeringMatchesBothBits (hashMac : List Nat) (bits : List Bool)
    (_h8 : hashMac.length = 8) (_hnz : bits ≠ []) :
    (steeringMatches hashMac bits = true ↔
      (getBit bits (crc16 kCcitt hashMac % getNumBits bits) = true ∧
       getBit bits (crc16 kAnsi hashMac % getNumBits bits) = true)) ∧
    (getBit bits (crc16 kCcitt hashMac % getNumBits bits) ≠
        getBit bits (crc16 kAnsi hashMac % getNumBits bits) →
      steeringMatches hashMac bits = false) := by
  constructor
  · simp [steeringMatches]
  · intro hne
    cases hA : getBit bits (crc16 kCcitt hashMac % getNumBits bits) <;>
      cases hB : getBit bits (crc16 kAnsi hashMac % getNumBits bits) <;>
        simp_all [steeringMatches]

/-- Witness for C5 at the example identity and the 8-bit bitmap with both
derived bits set. -/
theorem steeringMatchesBothBits_witness :
    (steeringMatches exMac bothBitsBitmap = true ↔
      (getBit bothBitsBitmap (crc16 kCcitt exMac % getNumBits bothBitsBitmap) = true ∧
       getBit bothBitsBitmap (crc16 kAnsi exMac % getNumBits bothBitsBitmap) = true)) ∧
    (getBit bothBitsBitmap (crc16 kCcitt exMac % getNumBits bothBitsBitmap) ≠
        getBit bothBitsBitmap (crc16 kAnsi exMac % getNumBits bothBitsBitmap) →
      steeringMatches exMac bothBitsBitmap = false) :=
  steeringMatchesBothBits exMac bothBitsBitmap (by decide) (by decide)

/-- C6: when a sequence of discovery results holds two or more steering
matches, the candidate router parameters the Joiner carries into the
terminal (null) discovery event are exactly those of the last matching
result. -/
theorem lastMatchWinsAtTerminal (hashMac : List Nat) (s : JoinerState)
    (rs : List ScanResult) (r : ScanResult)
    (_htwo : 2 ≤ (rs.filter (fun x => steeringMatches hashMac x.steeringData)).length)
    (hlast : lastSteeringMatch hashMac rs = some r) :
    (handleDiscoverResult hashMac (processScanResults hashMac s rs) none).1 =
      candidateOf r := by
  have h := processScanResults_eq_lastMatch hashMac s rs
  show processScanResults hashMac s rs = candidateOf r
  rw [h, hlast]
  rfl

/-- Witness for C6: two matching results followed by the terminal event
leave the second result's parameters. -/
theorem lastMatchWinsAtTerminal_witness :
    (handleDiscoverResult exMac
        (processScanResults exMac initJoinerState [exResult1, exResult2]) none).1 =
      candidateOf exResult2 :=
  lastMatchWinsAtTerminal exMac initJoinerState [exResult1, exResult2] exResult2
    (by decide) (by decide)

/-- C8: `Stop` is safe from any state and idempotent — it always returns
`kThreadError_None`, and a second `Stop` on the already-closed session
yields the identical observable channel state with no further state
change. -/
theorem stopIdempotent (s : SecureChannelState) :
    stop (stop s).1 = stop s ∧
    (stop s).2 = ThreadError.kNone ∧
    (stop (stop s).1).1 = (stop s).1 :=
  ⟨rfl, rfl, rfl⟩

/-- C9: a steering-matching discovery result whose PAN id is the broadcast
sentinel is indistinguishable from "no candidate selected": at the
terminal event the radio is not reprogrammed, no unsecure-port exception
is opened and no connect is attempted — exactly the effects of the
post-`Start` state with no result processed. -/
theorem broadcastPanCandidateInvisible (hashMac : List Nat) (s : JoinerState)
    (r : ScanResult)
    (hm : steeringMatches hashMac r.steeringData = true)
    (hp : r.panId = kPanIdBroadcast) :
    (handleDiscoverResult hashMac
        (handleScanResult hashMac { s with joinerRouterPanId := kPanIdBroadcast } r)
        none).2 = noTerminalEffects ∧
    (handleDiscoverResult hashMac
        (handleScanResult hashMac { s with joinerRouterPanId := kPanIdBroadcast } r)
        none).2 =
      (handleDiscoverResult hashMac { s with joinerRouterPanId := kPanIdBroadcast }
        none).2 := by
  have h1 : handleScanResult hashMac { s with joinerRouterPanId := kPanIdBroadcast } r =
      candidateOf r := by
    simp [handleScanResult, hm]
  constructor <;>
    simp [handleDiscoverResult, h1, handleTerminal, candidateOf, hp]

/-- Witness for C9: a matching result carrying PAN id `0xffff` leaves the
terminal event with no effects. -/
theorem broadcastPanCandidateInvisible_witness :
    (handleDiscoverResult exMac
        (handleScanResult exMac
          { initJoinerState with joinerRouterPanId := kPanIdBroadcast }
          broadcastPanResult)
        none).2 = noTerminalEffects ∧
    (handleDiscoverResult exMac
        (handleScanResult exMac
          { initJoinerState with joinerRouterPanId := kPanIdBroadcast }
          broadcastPanResult)
        none).2 =
      (handleDiscoverResult exMac
        { initJoinerState with joinerRouterPanId := kPanIdBroadcast } none).2 :=
  broadcastPanCandidateInvisible exMac initJoinerState broadcastPanResult
    (by decide) (by decide)

/-- C10 counterexample: with the constructor's state (`mJoinerRouterPanId
= 0`), a `Start` whose discovery request fails returns an error but has
already set `mJoinerRouterPanId` to the broadcast sentinel — Joiner state
beyond the extended address and link-local address is modified on a
synchronous failure. -/
theorem startFrameCounterexample :
    (start exMac [1, 2, 3] [] false initStartState).2 ≠ ThreadError.kNone ∧
    (start exMac [1, 2, 3] [] false initStartState).1.joinerRouterPanId ≠
      initStartState.joinerRouterPanId := by
  decide

/-- C10 amended: `Start` overwrites the extended address with the
hash-MAC-derived address and refreshes the link-local address before any
validation, so every synchronously failing `Start` leaves both changed;
when the pre-shared key fails validation nothing else is modified, and
when the discovery request fails the PSK and provisioning URL have been
installed and the joiner-router PAN id set to the broadcast sentinel
before the failing step. -/
theorem startFrameEffectAmended (hashMac pskd url : List Nat) (discoverOk : Bool)
    (s : StartState) :
    (start hashMac pskd url discoverOk s).1.macExtAddress = hashMac ∧
    (start hashMac pskd url discoverOk s).1.linkLocalIid = hashMac ∧
    (kMaxPskLength < pskd.length →
      (start hashMac pskd url discoverOk s).1 =
        { s with macExtAddress := hashMac, linkLocalIid := hashMac } ∧
      (start hashMac pskd url discoverOk s).2 = ThreadError.kInvalidArgs) ∧
    (pskd.length ≤ kMaxPskLength → url.length ≤ kMaxUrlLength → discoverOk = false →
      (start hashMac pskd url discoverOk s).1 =
        { s with macExtAddress := hashMac, linkLocalIid := hashMac,
                 dtlsPsk := some pskd, dtlsUrl := some url,
                 joinerRouterPanId := kPanIdBroadcast } ∧
      (start hashMac pskd url discoverOk s).2 = ThreadError.kBusy) := by
  unfold start
  split_ifs with h1 h2 h3 <;>
    refine ⟨rfl, rfl, ?_, ?_⟩ <;> intros <;> simp_all <;> omega

/-- Witness for C10's amended theorem: a failing discovery request with a
short PSK and empty URL. -/
theorem startFrameEffectAmended_witness :
    (start exMac [1, 2, 3] [] false initStartState).1 =
      { initStartState with macExtAddress := exMac, linkLocalIid := exMac,
                            dtlsPsk := some [1, 2, 3], dtlsUrl := some [],
                            joinerRouterPanId := kPanIdBroadcast } ∧
    (start exMac [1, 2, 3] [] false initStartState).2 = ThreadError.kBusy :=
  (startFrameEffectAmended exMac [1, 2, 3] [] false initStartState).2.2.2
    (by decide) (by decide) rfl

end MeshCoP
